import Mathlib

/-!
Verification development for the Sub-Zero cancellation orchestration engine.

Shallow embedding of:
* `src/orchestration/workflows/cancellation_workflow.py` (`CancellationWorkflow`)
* `src/orchestration/activities/browser_activities.py`
  (`start_cancellation`, `inject_2fa_code`, `capture_proof`)
* `src/orchestration/activities/notification_activities.py`
  (`send_push_notification`)
* `src/agent/browser_agent.py` (`cancel_subscription`)

Python dicts become structures with `Option` fields (`none` stands for a
missing key or a `None` value); a raised exception that escapes a function
becomes `Except.error`; the nondeterministic environment (agent exceptions,
framework-level activity-attempt failures, signal arrival time, exceptions
inside the TODO bodies of the placeholder activities) is an explicit
behaviour parameter.  The Temporal `execute_activity` retry loop is embedded
with its documented semantics: retry on a raised attempt up to
`maximum_attempts`, exponential backoff (coefficient 2) from
`initial_interval` capped at `maximum_interval`, and propagation of the last
error after exhaustion.
-/

namespace SubZero

/-- `pat` occurs at the start of `l`. -/
def matchesHere : List Char → List Char → Bool
  | [], _ => true
  | _ :: _, [] => false
  | a :: as, b :: bs => a == b && matchesHere as bs

/-- `pat` occurs somewhere in `l`. -/
def occursIn (pat : List Char) : List Char → Bool
  | [] => pat.isEmpty
  | c :: cs => matchesHere pat (c :: cs) || occursIn pat cs

/-- Substring test, Python `pat in s`. -/
def containsStr (s pat : String) : Bool :=
  occursIn pat.data s.data

/-- Python `str.lower()` (character-wise). -/
def lowerStr (s : String) : String :=
  String.mk (s.data.map Char.toLower)

/-- Python `"2FA" in str(e) or "verification" in str(e).lower()` from the
except-branch of `agent/browser_agent.py::cancel_subscription`. -/
def mentions2FA (m : String) : Bool :=
  containsStr m "2FA" || containsStr (lowerStr m) "verification"

/-- Dict returned by `agent/browser_agent.py::cancel_subscription`. -/
structure AgentResult where
  status : String
  service : Option String := none
  screenshot : Option String := none
  timestamp : Option String := none
  message : Option String := none
  error : Option String := none
deriving DecidableEq

/-- Environment behaviour of one invocation of the browser agent:
`setupRaises` is an exception thrown outside the `try` block (for example by
the `Browser(...)` construction), so it escapes `cancel_subscription`;
`runOk` is a successful `agent.run`; `runRaises` is an exception thrown
inside the `try` block, which `cancel_subscription` classifies itself. -/
inductive AgentBeh where
  | setupRaises (msg : String)
  | runOk
  | runRaises (msg : String)
deriving DecidableEq

/-- `agent/browser_agent.py::cancel_subscription`.  `Except.error` models an
exception escaping the function; `Except.ok` is the returned dict.  `ts`
stands for `datetime.now().isoformat()`. -/
def cancel_subscription (service_name ts : String) (beh : AgentBeh) :
    Except String AgentResult :=
  match beh with
  | AgentBeh.setupRaises m => Except.error m
  | AgentBeh.runOk =>
      Except.ok { status := "SUCCESS", service := some service_name,
                  screenshot := some ("proofs/" ++ service_name ++ "_" ++ ts ++ ".png"),
                  timestamp := some ts }
  | AgentBeh.runRaises m =>
      if mentions2FA m then
        Except.ok { status := "2FA_REQUIRED", service := some service_name,
                    message := some "User needs to provide verification code" }
      else
        Except.ok { status := "FAILED", service := some service_name,
                    error := some m }

/-- The workflow input dict (`request` in `CancellationWorkflow.run`); a
missing key is the empty string.  `annual_cost` defaults to 0 exactly as
`request.get("annual_cost", 0)` does. -/
structure WfRequest where
  user_id : String
  service_name : String
  login_url : String
  email : String
  password : String
  annual_cost : Nat := 0
deriving DecidableEq

/-- Dict shape produced by `start_cancellation` and `inject_2fa_code` and
consumed by the workflow (`result` in `CancellationWorkflow.run`). -/
structure ActResult where
  status : String
  session_id : Option String := none
  message : Option String := none
  screenshot_path : Option String := none
  timestamp : Option String := none
  service_name : Option String := none
deriving DecidableEq

/-- The session id built in `start_cancellation`:
`f"{service_name}_{request.get('user_id')}_{datetime.now().timestamp()}"`. -/
def mkSessionId (req : WfRequest) (ts : String) : String :=
  req.service_name ++ "_" ++ req.user_id ++ "_" ++ ts

/-- `orchestration/activities/browser_activities.py::start_cancellation`.
Total: every exception raised by the browser agent is caught and turned into
a returned dict, so the function itself never raises. -/
def start_cancellation (req : WfRequest) (ts : String) (beh : AgentBeh) :
    ActResult :=
  if req.service_name = "" ∨ req.login_url = "" ∨ req.email = "" ∨ req.password = "" then
    { status := "FAILED",
      message := some "Missing required parameters: service_name, login_url, email, password" }
  else
    match cancel_subscription req.service_name ts beh with
    | Except.error e =>
        { status := "FAILED", message := some ("Exception occurred: " ++ e),
          service_name := some req.service_name }
    | Except.ok r =>
        if r.status = "2FA_REQUIRED" then
          { status := "2FA_REQUIRED", session_id := some (mkSessionId req ts),
            message := some (r.message.getD "Verification code required"),
            service_name := some req.service_name }
        else if r.status = "SUCCESS" then
          { status := "SUCCESS", session_id := some (mkSessionId req ts),
            screenshot_path := r.screenshot, timestamp := r.timestamp,
            service_name := some req.service_name }
        else
          { status := "FAILED",
            message := some (r.error.getD "Unknown error occurred"),
            service_name := some req.service_name }

/-- `orchestration/activities/browser_activities.py::inject_2fa_code`.  The
placeholder body cannot raise, so the function is total: it validates its
two parameters and then unconditionally reports success — the code value is
never checked against anything. -/
def inject_2fa_code (session_id code : String) : ActResult :=
  if session_id = "" ∨ code = "" then
    { status := "FAILED",
      message := some "Missing required parameters: session_id, code" }
  else
    { status := "SUCCESS", session_id := some session_id,
      message := some "2FA code verified and cancellation continued" }

/-- Dict returned by `capture_proof`. -/
structure ProofResult where
  screenshot_url : Option String := none
  video_url : Option String := none
  timestamp : Option String := none
  session_id : Option String := none
  message : Option String := none
deriving DecidableEq

/-- `orchestration/activities/browser_activities.py::capture_proof`.
`exc` is the except-branch trigger.  Modelled from the spec: the real proof
capture (screenshot upload, recording retrieval) is a TODO in the source;
per spec section 6 the Proof Capturer is an external collaborator that can
fail, and the source's except-branch absorbs such a failure into a dict with
a `None` screenshot URL. -/
def capture_proof (session_id ts : String) (exc : Option String) : ProofResult :=
  if session_id = "" then
    { screenshot_url := none, message := some "Missing session_id" }
  else
    match exc with
    | some e =>
        { screenshot_url := none, video_url := none,
          message := some ("Failed to capture proof: " ++ e) }
    | none =>
        { screenshot_url := some ("https://storage.supabase.co/proof/" ++ session_id ++ "/screenshot.png"),
          video_url := some ("https://steel.dev/sessions/" ++ session_id ++ "/recording.mp4"),
          timestamp := some ts, session_id := some session_id }

/-- Dict returned by `send_push_notification`. -/
structure NotifyResult where
  status : String
  delivery_status : String
  user_id : Option String := none
deriving DecidableEq

/-- `orchestration/activities/notification_activities.py::send_push_notification`.
`exc` is the except-branch trigger.  Modelled from the spec: actual FCM/APNs
delivery is a TODO in the source; per spec section 6 the Notifier is a
best-effort external collaborator that can fail, and the source's
except-branch absorbs such a failure into a dict with status `FAILED`. -/
def send_push_notification (user_id title body : String) (exc : Option String) :
    NotifyResult :=
  if user_id = "" ∨ title = "" ∨ body = "" then
    { status := "FAILED",
      delivery_status := "Missing required parameters: user_id, title, body" }
  else
    match exc with
    | some e =>
        { status := "FAILED",
          delivery_status := "Failed to send notification: " ++ e }
    | none =>
        { status := "SUCCESS",
          delivery_status := "Notification sent to all user devices",
          user_id := some user_id }

/-- The `RetryPolicy` constructed in `CancellationWorkflow.run`.  Intervals
are in seconds; `backoff_coefficient` is Temporal's documented default of 2
(the source does not override it). -/
structure RetryPolicy where
  initial_interval : Nat
  maximum_interval : Nat
  maximum_attempts : Nat
  backoff_coefficient : Nat
deriving DecidableEq

/-- `RetryPolicy(initial_interval=1s, maximum_interval=5min, maximum_attempts=3)`. -/
def cancellation_retry_policy : RetryPolicy :=
  { initial_interval := 1, maximum_interval := 300,
    maximum_attempts := 3, backoff_coefficient := 2 }

/-- Backoff delay waited before retry attempt `i` (0-based; only used for
`i ≥ 1`): `initial_interval * backoff_coefficient ^ (i-1)` capped at
`maximum_interval`, Temporal's documented retry schedule. -/
def retryDelay (p : RetryPolicy) (i : Nat) : Nat :=
  min (p.initial_interval * p.backoff_coefficient ^ (i - 1)) p.maximum_interval

/-- Outcome of one framework-level attempt of an activity: `fail` means the
attempt raised (activity timeout, worker failure — the trigger Temporal
retries on); `done` means the activity function completed and returned. -/
inductive ActAttempt (α : Type) where
  | fail (msg : String)
  | done (v : α)
deriving DecidableEq

/-- Retry loop of Temporal's `execute_activity`: run attempts `i, i+1, ...`
while `rem` attempts remain; return the first completed value, or after
exhaustion the last error, together with the list of delays waited before
each executed attempt (0 before the first). -/
def runAttempts {α : Type} (p : RetryPolicy) (f : Nat → ActAttempt α) :
    Nat → Nat → Except String α × List Nat
  | _, 0 => (Except.error "retry policy permits no attempts", [])
  | i, rem + 1 =>
    let d := if i = 0 then 0 else retryDelay p i
    match f i with
    | ActAttempt.done v => (Except.ok v, [d])
    | ActAttempt.fail msg =>
      match rem with
      | 0 => (Except.error msg, [d])
      | rem2 + 1 =>
        let rest := runAttempts p f (i + 1) (rem2 + 1)
        (rest.1, d :: rest.2)

/-- `workflow.execute_activity` with a retry policy: up to
`p.maximum_attempts` attempts; a result of `Except.error` is the activity
failure that propagates into (and, uncaught, out of) the workflow. -/
def executeActivity {α : Type} (p : RetryPolicy) (f : Nat → ActAttempt α) :
    Except String α × List Nat :=
  runAttempts p f 0 p.maximum_attempts

/-- Mutable state of a `CancellationWorkflow` instance: the `self.status`
and `self.two_fa_code` fields. -/
structure WfState where
  status : String
  two_fa_code : Option String
deriving DecidableEq

/-- The `@workflow.signal` handler `provide_2fa_code`: unconditionally
overwrites `self.two_fa_code`, in every status. -/
def provide_2fa_code (s : WfState) (code : String) : WfState :=
  { s with two_fa_code := some code }

/-- Environment behaviour of one workflow execution.
`beginFrameworkFail i = some m` makes framework-level attempt `i` of the
`start_cancellation` activity raise `m` (activity timeout or worker failure:
the activity function itself is total, so this is the only way an attempt
can fail); `agentBeh i` is the browser-agent behaviour when attempt `i`
does execute; `signal = some (t, code)` delivers one `provide_2fa_code`
signal `t` seconds after the 2FA wait begins (earlier submissions count as
`t = 0`), `none` means no signal ever arrives; `ts` is the activity-side
clock, `now` the workflow-side `workflow.now().isoformat()`. -/
structure WfEnv where
  beginFrameworkFail : Nat → Option String
  agentBeh : Nat → AgentBeh
  signal : Option (Nat × String)
  notifyExc : Option String
  captureExc : Option String
  ts : String
  now : String

/-- Framework-level attempt `i` of the begin-cancellation activity. -/
def beginAttempt (req : WfRequest) (env : WfEnv) (i : Nat) : ActAttempt ActResult :=
  match env.beginFrameworkFail i with
  | some m => ActAttempt.fail m
  | none => ActAttempt.done (start_cancellation req env.ts (env.agentBeh i))

/-- Dict returned by `CancellationWorkflow.run` (union of the key sets of
its three return statements; `none` = key absent or `None` value). -/
structure RunResult where
  status : String
  reason : Option String := none
  message : Option String := none
  session_id : Option String := none
  screenshot_path : Option String := none
  timestamp : Option String := none
  service_name : Option String := none
  screenshot_url : Option String := none
  video_url : Option String := none
  savings_per_year : Option Nat := none
  cancelled_at : Option String := none
deriving DecidableEq

/-- The bare `return result` fall-through of the workflow, returning an
activity result dict unchanged. -/
def toRunResult (r : ActResult) : RunResult :=
  { status := r.status, message := r.message, session_id := r.session_id,
    screenshot_path := r.screenshot_path, timestamp := r.timestamp,
    service_name := r.service_name }

deriving instance DecidableEq for Except

/-- Observable outcome of one workflow execution: the value returned by
`run` (`Except.error` = an unhandled exception propagating out of the
workflow), the ordered list of values assigned to `self.status` (starting
with the constructor's `PENDING`), the activities invoked in order, the
delays before each executed begin-activity attempt, the notification
activity's result when it ran, and the final mutable state. -/
structure RunOutcome where
  result : Except String RunResult
  trace : List String
  activities : List String
  beginDelays : List Nat
  notifyResult : Option NotifyResult
  finalState : WfState
deriving DecidableEq

/-- Step 4 of `CancellationWorkflow.run`: `self.status = "CAPTURING_PROOF"`,
invoke `capture_proof`, return the success dict and set `COMPLETED`; or, for
a non-`SUCCESS` current result, set `FAILED` and return the result dict
unchanged.  A `SUCCESS` result without a `session_id` key would raise
`KeyError` while building the capture payload (after the status assignment);
this branch is unreachable in practice but kept faithful to the source. -/
def finalize (req : WfRequest) (env : WfEnv) (st : WfState)
    (tr acts : List String) (ds : List Nat) (nr : Option NotifyResult)
    (result : ActResult) : RunOutcome :=
  if result.status = "SUCCESS" then
    match result.session_id with
    | none =>
        { result := Except.error "KeyError: session_id",
          trace := tr ++ ["CAPTURING_PROOF"], activities := acts,
          beginDelays := ds, notifyResult := nr,
          finalState := { st with status := "CAPTURING_PROOF" } }
    | some sid =>
        let proof := capture_proof sid env.ts env.captureExc
        { result := Except.ok
            { status := "SUCCESS", screenshot_url := proof.screenshot_url,
              video_url := proof.video_url,
              savings_per_year := some req.annual_cost,
              cancelled_at := some env.now },
          trace := tr ++ ["CAPTURING_PROOF", "COMPLETED"],
          activities := acts ++ ["capture_proof"],
          beginDelays := ds, notifyResult := nr,
          finalState := { st with status := "COMPLETED" } }
  else
    { result := Except.ok (toRunResult result),
      trace := tr ++ ["FAILED"], activities := acts,
      beginDelays := ds, notifyResult := nr,
      finalState := { st with status := "FAILED" } }

/-- The `except TimeoutError` branch of the 2FA wait: `self.status =
"TIMEOUT"` and `return {"status": "FAILED", "reason": "2FA code not
provided in time"}`; no further activities run. -/
def timeoutOutcome (ds : List Nat) (nr : NotifyResult) : RunOutcome :=
  { result := Except.ok
      { status := "FAILED", reason := some "2FA code not provided in time" },
    trace := ["PENDING", "STARTING", "NAVIGATING", "AWAITING_2FA", "TIMEOUT"],
    activities := ["start_cancellation", "send_push_notification"],
    beginDelays := ds, notifyResult := some nr,
    finalState := { status := "TIMEOUT", two_fa_code := none } }

/-- Steps 2-4 of `CancellationWorkflow.run`, entered with the result of the
begin-cancellation activity: the 2FA branch (notify, bounded wait for the
signal, inject the code) when the result reports `2FA_REQUIRED`, otherwise
straight to finalization. -/
def runAfterBegin (req : WfRequest) (env : WfEnv) (ds : List Nat)
    (result : ActResult) : RunOutcome :=
  if result.status = "2FA_REQUIRED" then
    let nr := send_push_notification req.user_id
      (req.service_name ++ " needs verification")
      "Enter the code from your SMS/email to continue cancellation"
      env.notifyExc
    match env.signal with
    | none => timeoutOutcome ds nr
    | some (t, code) =>
      if t < 600 then
        let st2 := provide_2fa_code { status := "AWAITING_2FA", two_fa_code := none } code
        match result.session_id with
        | none =>
            { result := Except.error "KeyError: session_id",
              trace := ["PENDING", "STARTING", "NAVIGATING", "AWAITING_2FA", "VERIFYING_2FA"],
              activities := ["start_cancellation", "send_push_notification"],
              beginDelays := ds, notifyResult := some nr,
              finalState := { st2 with status := "VERIFYING_2FA" } }
        | some sid =>
            let result2 := inject_2fa_code sid (st2.two_fa_code.getD "")
            finalize req env { st2 with status := "VERIFYING_2FA" }
              ["PENDING", "STARTING", "NAVIGATING", "AWAITING_2FA", "VERIFYING_2FA"]
              ["start_cancellation", "send_push_notification", "inject_2fa_code"]
              ds (some nr) result2
      else timeoutOutcome ds nr
  else
    finalize req env { status := "NAVIGATING", two_fa_code := none }
      ["PENDING", "STARTING", "NAVIGATING"] ["start_cancellation"] ds none result

/-- `CancellationWorkflow.run`: `PENDING` (constructor), `STARTING`,
`NAVIGATING`, the begin-cancellation activity under the retry policy
(an exhausted retry propagates its error out of the workflow uncaught),
then steps 2-4. -/
def run (req : WfRequest) (env : WfEnv) : RunOutcome :=
  let pr := executeActivity cancellation_retry_policy (beginAttempt req env)
  match pr.1 with
  | Except.error e =>
      { result := Except.error e,
        trace := ["PENDING", "STARTING", "NAVIGATING"],
        activities := ["start_cancellation"],
        beginDelays := pr.2, notifyResult := none,
        finalState := { status := "NAVIGATING", two_fa_code := none } }
  | Except.ok result => runAfterBegin req env pr.2 result

/-- Terminal statuses of the state machine. -/
def isTerminal (s : String) : Bool :=
  s = "COMPLETED" || s = "FAILED" || s = "TIMEOUT"

/-- The transition graph of spec section 4.3 as read by the claim:
the spine `PENDING → STARTING → NAVIGATING → (AWAITING_2FA →
VERIFYING_2FA)? → CAPTURING_PROOF → COMPLETED`, plus `* → FAILED` from any
non-terminal state and `AWAITING_2FA → TIMEOUT`. -/
def allowedEdge (a b : String) : Bool :=
  (a = "PENDING" && b = "STARTING") ||
  (a = "STARTING" && b = "NAVIGATING") ||
  (a = "NAVIGATING" && b = "AWAITING_2FA") ||
  (a = "AWAITING_2FA" && b = "VERIFYING_2FA") ||
  (a = "NAVIGATING" && b = "CAPTURING_PROOF") ||
  (a = "VERIFYING_2FA" && b = "CAPTURING_PROOF") ||
  (a = "CAPTURING_PROOF" && b = "COMPLETED") ||
  (a = "AWAITING_2FA" && b = "TIMEOUT") ||
  (!isTerminal a && b = "FAILED")

/-- The notification built in the 2FA branch of the workflow. -/
def awaitNotify (req : WfRequest) (env : WfEnv) : NotifyResult :=
  send_push_notification req.user_id
    (req.service_name ++ " needs verification")
    "Enter the code from your SMS/email to continue cancellation"
    env.notifyExc

/-- Every consecutive pair of a status trace lies in the transition graph. -/
def chainOk : List String → Bool
  | [] => true
  | [_] => true
  | a :: b :: rest => allowedEdge a b && chainOk (b :: rest)

/-! Helper lemmas about the embedded engine. -/

/-- The session id always contains an underscore, hence is non-empty. -/
theorem mkSessionId_ne_empty (req : WfRequest) (ts : String) :
    mkSessionId req ts ≠ "" := by
  intro h
  have h2 : (mkSessionId req ts).data = [] := by rw [h]
  have hu : ("_" : String).data = ['_'] := rfl
  rw [mkSessionId] at h2
  simp [String.data_append, hu] at h2

/-- A begin-cancellation result reporting `2FA_REQUIRED` or `SUCCESS` always
carries the generated session id. -/
theorem start_cancellation_session_id (req : WfRequest) (ts : String)
    (beh : AgentBeh)
    (h : (start_cancellation req ts beh).status = "2FA_REQUIRED" ∨
         (start_cancellation req ts beh).status = "SUCCESS") :
    (start_cancellation req ts beh).session_id = some (mkSessionId req ts) := by
  by_cases hv : req.service_name = "" ∨ req.login_url = "" ∨ req.email = "" ∨ req.password = ""
  · simp [start_cancellation, hv] at h
  · cases hc : cancel_subscription req.service_name ts beh with
    | error e => simp [start_cancellation, hv, hc] at h
    | ok r =>
      by_cases h2 : r.status = "2FA_REQUIRED"
      · simp [start_cancellation, hv, hc, h2]
      · by_cases hs : r.status = "SUCCESS"
        · simp [start_cancellation, hv, hc, h2, hs]
        · simp [start_cancellation, hv, hc, h2, hs] at h

/-- When the first framework-level attempt does not fail, `execute_activity`
performs exactly one attempt and returns the activity's value. -/
theorem execute_begin_first (req : WfRequest) (env : WfEnv)
    (h : env.beginFrameworkFail 0 = none) :
    executeActivity cancellation_retry_policy (beginAttempt req env) =
      (Except.ok (start_cancellation req env.ts (env.agentBeh 0)), [0]) := by
  simp [executeActivity, cancellation_retry_policy, runAttempts, beginAttempt, h]

/-- When the first three framework-level attempts all fail, the retry policy
is exhausted: three attempts run, with backoff delays 0, 1 and 2 seconds
before them, and the last error is propagated. -/
theorem execute_begin_exhaust (req : WfRequest) (env : WfEnv)
    (m0 m1 m2 : String)
    (h0 : env.beginFrameworkFail 0 = some m0)
    (h1 : env.beginFrameworkFail 1 = some m1)
    (h2 : env.beginFrameworkFail 2 = some m2) :
    executeActivity cancellation_retry_policy (beginAttempt req env) =
      (Except.error m2, [0, 1, 2]) := by
  simp [executeActivity, cancellation_retry_policy, runAttempts, beginAttempt,
        h0, h1, h2, retryDelay]

/-- Rewriting `run` when the begin activity completes on its first attempt. -/
theorem run_eq_afterBegin (req : WfRequest) (env : WfEnv)
    (h : env.beginFrameworkFail 0 = none) :
    run req env =
      runAfterBegin req env [0] (start_cancellation req env.ts (env.agentBeh 0)) := by
  unfold run
  rw [execute_begin_first req env h]

/-- A non-`2FA_REQUIRED` begin result goes straight to finalization. -/
theorem runAfterBegin_not2fa (req : WfRequest) (env : WfEnv) (ds : List Nat)
    (result : ActResult) (h : result.status ≠ "2FA_REQUIRED") :
    runAfterBegin req env ds result =
      finalize req env { status := "NAVIGATING", two_fa_code := none }
        ["PENDING", "STARTING", "NAVIGATING"] ["start_cancellation"] ds none result := by
  unfold runAfterBegin
  rw [if_neg h]

/-- A `2FA_REQUIRED` begin result with no signal within the 10-minute bound
times out. -/
theorem runAfterBegin_timeout (req : WfRequest) (env : WfEnv) (ds : List Nat)
    (result : ActResult) (h : result.status = "2FA_REQUIRED")
    (hsig : env.signal = none ∨ ∃ t c, env.signal = some (t, c) ∧ 600 ≤ t) :
    runAfterBegin req env ds result = timeoutOutcome ds (awaitNotify req env) := by
  unfold runAfterBegin
  rw [if_pos h]
  rcases hsig with hn | ⟨t, c, hs, ht⟩
  · rw [hn]; rfl
  · rw [hs]
    simp [awaitNotify, Nat.not_lt.mpr ht]

/-- A `2FA_REQUIRED` begin result with a signal delivered inside the bound
consumes the code and moves on to 2FA injection. -/
theorem runAfterBegin_deliver (req : WfRequest) (env : WfEnv) (ds : List Nat)
    (result : ActResult) (t : Nat) (c sid : String)
    (h : result.status = "2FA_REQUIRED")
    (hsig : env.signal = some (t, c)) (ht : t < 600)
    (hsid : result.session_id = some sid) :
    runAfterBegin req env ds result =
      finalize req env { status := "VERIFYING_2FA", two_fa_code := some c }
        ["PENDING", "STARTING", "NAVIGATING", "AWAITING_2FA", "VERIFYING_2FA"]
        ["start_cancellation", "send_push_notification", "inject_2fa_code"]
        ds (some (awaitNotify req env)) (inject_2fa_code sid c) := by
  unfold runAfterBegin
  rw [if_pos h, hsig]
  simp [ht, hsid, provide_2fa_code, awaitNotify]

/-- Finalizing a `SUCCESS` result captures proof and completes. -/
theorem finalize_success_eq (req : WfRequest) (env : WfEnv) (st : WfState)
    (tr acts : List String) (ds : List Nat) (nr : Option NotifyResult)
    (result : ActResult) (sid : String)
    (hs : result.status = "SUCCESS") (hsid : result.session_id = some sid) :
    finalize req env st tr acts ds nr result =
      { result := Except.ok
          { status := "SUCCESS",
            screenshot_url := (capture_proof sid env.ts env.captureExc).screenshot_url,
            video_url := (capture_proof sid env.ts env.captureExc).video_url,
            savings_per_year := some req.annual_cost,
            cancelled_at := some env.now },
        trace := tr ++ ["CAPTURING_PROOF", "COMPLETED"],
        activities := acts ++ ["capture_proof"],
        beginDelays := ds, notifyResult := nr,
        finalState := { st with status := "COMPLETED" } } := by
  unfold finalize
  rw [if_pos hs, hsid]

/-- Finalizing a non-`SUCCESS` result fails, returning the dict unchanged. -/
theorem finalize_fail_eq (req : WfRequest) (env : WfEnv) (st : WfState)
    (tr acts : List String) (ds : List Nat) (nr : Option NotifyResult)
    (result : ActResult) (hs : result.status ≠ "SUCCESS") :
    finalize req env st tr acts ds nr result =
      { result := Except.ok (toRunResult result),
        trace := tr ++ ["FAILED"], activities := acts,
        beginDelays := ds, notifyResult := nr,
        finalState := { st with status := "FAILED" } } := by
  unfold finalize
  rw [if_neg hs]

/-- Finalization preserves the statuses already traced. -/
theorem finalize_trace_mem (req : WfRequest) (env : WfEnv) (st : WfState)
    (tr acts : List String) (ds : List Nat) (nr : Option NotifyResult)
    (result : ActResult) (x : String) (hx : x ∈ tr) :
    x ∈ (finalize req env st tr acts ds nr result).trace := by
  unfold finalize
  by_cases hs : result.status = "SUCCESS"
  · rw [if_pos hs]
    cases result.session_id <;> simp [hx]
  · rw [if_neg hs]; simp [hx]

/-- Finalization never touches `two_fa_code` and, except for the unreachable
missing-session branch, always ends in a terminal status. -/
theorem finalize_state_eq (req : WfRequest) (env : WfEnv) (st : WfState)
    (tr acts : List String) (ds : List Nat) (nr : Option NotifyResult)
    (result : ActResult)
    (h : result.status = "SUCCESS" → result.session_id ≠ none) :
    (finalize req env st tr acts ds nr result).finalState.two_fa_code = st.two_fa_code ∧
    isTerminal (finalize req env st tr acts ds nr result).finalState.status = true := by
  unfold finalize
  by_cases hs : result.status = "SUCCESS"
  · rw [if_pos hs]
    cases hsd : result.session_id with
    | none => exact absurd hsd (h hs)
    | some sid => exact ⟨rfl, rfl⟩
  · rw [if_neg hs]; exact ⟨rfl, rfl⟩

/-- A successful 2FA injection echoes the session id it was given. -/
theorem inject_session_of_success (sid c : String)
    (h : (inject_2fa_code sid c).status = "SUCCESS") :
    (inject_2fa_code sid c).session_id = some sid := by
  unfold inject_2fa_code at h ⊢
  by_cases hv : sid = "" ∨ c = ""
  · rw [if_pos hv] at h
    exact absurd h (by decide)
  · rw [if_neg hv]

/-- Finalizing a `SUCCESS` result lacking a session id raises `KeyError`
after the `CAPTURING_PROOF` status assignment (unreachable in practice). -/
theorem finalize_keyerror_eq (req : WfRequest) (env : WfEnv) (st : WfState)
    (tr acts : List String) (ds : List Nat) (nr : Option NotifyResult)
    (result : ActResult)
    (hs : result.status = "SUCCESS") (hsid : result.session_id = none) :
    finalize req env st tr acts ds nr result =
      { result := Except.error "KeyError: session_id",
        trace := tr ++ ["CAPTURING_PROOF"], activities := acts,
        beginDelays := ds, notifyResult := nr,
        finalState := { st with status := "CAPTURING_PROOF" } } := by
  unfold finalize
  rw [if_pos hs, hsid]

/-- With an except-branch trigger set, the notification activity reports
`FAILED` whatever the request contents. -/
theorem notify_failed_of_exc (user_id title body e : String) :
    (send_push_notification user_id title body (some e)).status = "FAILED" := by
  by_cases hv : user_id = "" ∨ title = "" ∨ body = ""
  · simp [send_push_notification, hv]
  · simp [send_push_notification, hv]

/-- Finalization reports exactly the notification result it was handed. -/
theorem finalize_nr (req : WfRequest) (env : WfEnv) (st : WfState)
    (tr acts : List String) (ds : List Nat) (nr : Option NotifyResult)
    (result : ActResult) :
    (finalize req env st tr acts ds nr result).notifyResult = nr := by
  unfold finalize
  by_cases hs : result.status = "SUCCESS"
  · rw [if_pos hs]; cases result.session_id <;> rfl
  · rw [if_neg hs]

/-- Every 2FA-branch outcome passes through `AWAITING_2FA`. -/
theorem runAfterBegin_awaiting_mem (req : WfRequest) (env : WfEnv)
    (ds : List Nat) (result : ActResult)
    (h : result.status = "2FA_REQUIRED") :
    "AWAITING_2FA" ∈ (runAfterBegin req env ds result).trace := by
  unfold runAfterBegin
  rw [if_pos h]
  cases hs : env.signal with
  | none => simp [timeoutOutcome]
  | some tc =>
    obtain ⟨t, c⟩ := tc
    dsimp only
    by_cases ht : t < 600
    · rw [if_pos ht]
      cases hsid : result.session_id with
      | none => simp
      | some sid =>
        refine finalize_trace_mem _ _ _ _ _ _ _ _ _ ?_
        decide
    · rw [if_neg ht]
      simp [timeoutOutcome]

/-- Every 2FA-branch outcome records the notification activity's result. -/
theorem runAfterBegin_notifyResult (req : WfRequest) (env : WfEnv)
    (ds : List Nat) (result : ActResult)
    (h : result.status = "2FA_REQUIRED") :
    (runAfterBegin req env ds result).notifyResult = some (awaitNotify req env) := by
  unfold runAfterBegin
  rw [if_pos h]
  cases hs : env.signal with
  | none => rfl
  | some tc =>
    obtain ⟨t, c⟩ := tc
    dsimp only
    by_cases ht : t < 600
    · rw [if_pos ht]
      cases hsid : result.session_id with
      | none => rfl
      | some sid => exact finalize_nr _ _ _ _ _ _ _ _
    · rw [if_neg ht]; rfl

/-- Finalization depends on the environment only through the activity clock,
the capture except-trigger and the workflow clock, and ignores the recorded
notification result in everything but the `notifyResult` field. -/
theorem finalize_indep (req : WfRequest) (e1 e2 : WfEnv)
    (hts : e1.ts = e2.ts) (hcap : e1.captureExc = e2.captureExc)
    (hnow : e1.now = e2.now)
    (st : WfState) (tr acts : List String) (ds : List Nat)
    (n1 n2 : Option NotifyResult) (result : ActResult) :
    (finalize req e1 st tr acts ds n1 result).result =
      (finalize req e2 st tr acts ds n2 result).result ∧
    (finalize req e1 st tr acts ds n1 result).trace =
      (finalize req e2 st tr acts ds n2 result).trace ∧
    (finalize req e1 st tr acts ds n1 result).activities =
      (finalize req e2 st tr acts ds n2 result).activities ∧
    (finalize req e1 st tr acts ds n1 result).finalState =
      (finalize req e2 st tr acts ds n2 result).finalState := by
  unfold finalize
  rw [hts, hcap, hnow]
  by_cases hs : result.status = "SUCCESS"
  · rw [if_pos hs, if_pos hs]
    cases result.session_id <;> exact ⟨rfl, rfl, rfl, rfl⟩
  · rw [if_neg hs, if_neg hs]
    exact ⟨rfl, rfl, rfl, rfl⟩

/-- The rest of the workflow behaves identically whatever the notification
activity's outcome: only the recorded `notifyResult` can differ. -/
theorem runAfterBegin_notify_indep (req : WfRequest) (env : WfEnv)
    (x y : Option String) (ds : List Nat) (result : ActResult) :
    (runAfterBegin req { env with notifyExc := x } ds result).result =
      (runAfterBegin req { env with notifyExc := y } ds result).result ∧
    (runAfterBegin req { env with notifyExc := x } ds result).trace =
      (runAfterBegin req { env with notifyExc := y } ds result).trace ∧
    (runAfterBegin req { env with notifyExc := x } ds result).activities =
      (runAfterBegin req { env with notifyExc := y } ds result).activities ∧
    (runAfterBegin req { env with notifyExc := x } ds result).finalState =
      (runAfterBegin req { env with notifyExc := y } ds result).finalState := by
  unfold runAfterBegin
  by_cases h2 : result.status = "2FA_REQUIRED"
  · rw [if_pos h2, if_pos h2]
    cases hs : env.signal with
    | none => exact ⟨rfl, rfl, rfl, rfl⟩
    | some tc =>
      obtain ⟨t, c⟩ := tc
      dsimp only
      by_cases ht : t < 600
      · rw [if_pos ht, if_pos ht]
        cases hsid : result.session_id with
        | none => exact ⟨rfl, rfl, rfl, rfl⟩
        | some sid => exact finalize_indep req _ _ rfl rfl rfl _ _ _ _ _ _ _
      · rw [if_neg ht, if_neg ht]
        exact ⟨rfl, rfl, rfl, rfl⟩
  · rw [if_neg h2, if_neg h2]
    exact finalize_indep req _ _ rfl rfl rfl _ _ _ _ _ _ _

/-- A string with a non-empty prefix is non-empty. -/
theorem append_left_ne_empty (a b : String) (ha : a ≠ "") : a ++ b ≠ "" := by
  intro h
  have h2 : (a ++ b).data = [] := by rw [h]
  rw [String.data_append] at h2
  exact ha (String.ext (List.append_eq_nil.mp h2).1)

/-- Finalization reports exactly the attempt delays it was handed. -/
theorem finalize_ds (req : WfRequest) (env : WfEnv) (st : WfState)
    (tr acts : List String) (ds : List Nat) (nr : Option NotifyResult)
    (result : ActResult) :
    (finalize req env st tr acts ds nr result).beginDelays = ds := by
  unfold finalize
  by_cases hs : result.status = "SUCCESS"
  · rw [if_pos hs]; cases result.session_id <;> rfl
  · rw [if_neg hs]

/-- Every post-begin outcome reports exactly the begin-attempt delays. -/
theorem runAfterBegin_delays (req : WfRequest) (env : WfEnv)
    (ds : List Nat) (result : ActResult) :
    (runAfterBegin req env ds result).beginDelays = ds := by
  unfold runAfterBegin
  by_cases h2 : result.status = "2FA_REQUIRED"
  · rw [if_pos h2]
    cases hs : env.signal with
    | none => rfl
    | some tc =>
      obtain ⟨t, c⟩ := tc
      dsimp only
      by_cases ht : t < 600
      · rw [if_pos ht]
        cases hsid : result.session_id with
        | none => rfl
        | some sid => exact finalize_ds _ _ _ _ _ _ _ _
      · rw [if_neg ht]; rfl
  · rw [if_neg h2]
    exact finalize_ds _ _ _ _ _ _ _ _

/-! Claim C1. -/

/-- C1, counterexample.  In a run where the begin activity reports a 2FA
challenge and no code is ever delivered, the instance does transition to
`TIMEOUT`, but the returned terminal result has status `"FAILED"` (not
`TIMEOUT`) and reason `"2FA code not provided in time"` (not the claimed
`"2FA not provided in time"`). -/
theorem c1_counterexample :
    (run
      { user_id := "u1", service_name := "Netflix",
        login_url := "https://netflix.com/login", email := "a@b.c", password := "pw" }
      { beginFrameworkFail := fun _ => none,
        agentBeh := fun _ => AgentBeh.runRaises "2FA required by site",
        signal := none, notifyExc := none, captureExc := none,
        ts := "T0", now := "T1" }).finalState.status = "TIMEOUT" ∧
    ((run
      { user_id := "u1", service_name := "Netflix",
        login_url := "https://netflix.com/login", email := "a@b.c", password := "pw" }
      { beginFrameworkFail := fun _ => none,
        agentBeh := fun _ => AgentBeh.runRaises "2FA required by site",
        signal := none, notifyExc := none, captureExc := none,
        ts := "T0", now := "T1" }).result.toOption.map RunResult.reason =
        some (some "2FA code not provided in time")) ∧
    ((run
      { user_id := "u1", service_name := "Netflix",
        login_url := "https://netflix.com/login", email := "a@b.c", password := "pw" }
      { beginFrameworkFail := fun _ => none,
        agentBeh := fun _ => AgentBeh.runRaises "2FA required by site",
        signal := none, notifyExc := none, captureExc := none,
        ts := "T0", now := "T1" }).result.toOption.map RunResult.reason ≠
        some (some "2FA not provided in time")) ∧
    ((run
      { user_id := "u1", service_name := "Netflix",
        login_url := "https://netflix.com/login", email := "a@b.c", password := "pw" }
      { beginFrameworkFail := fun _ => none,
        agentBeh := fun _ => AgentBeh.runRaises "2FA required by site",
        signal := none, notifyExc := none, captureExc := none,
        ts := "T0", now := "T1" }).result.toOption.map RunResult.status ≠
        some "TIMEOUT") := by
  decide

/-- C1, amended: in every run in which the begin activity reports a 2FA
challenge and no 2FA code is delivered within the 10-minute bound, the
instance transitions to `TIMEOUT` and no further activities run, but the
terminal result is the dict with status `"FAILED"` and reason
`"2FA code not provided in time"`. -/
theorem c1_timeout_behavior (req : WfRequest) (env : WfEnv)
    (hf : env.beginFrameworkFail 0 = none)
    (hst : (start_cancellation req env.ts (env.agentBeh 0)).status = "2FA_REQUIRED")
    (hsig : env.signal = none ∨ ∃ t c, env.signal = some (t, c) ∧ 600 ≤ t) :
    (run req env).finalState.status = "TIMEOUT" ∧
    (run req env).trace =
      ["PENDING", "STARTING", "NAVIGATING", "AWAITING_2FA", "TIMEOUT"] ∧
    (run req env).activities = ["start_cancellation", "send_push_notification"] ∧
    (run req env).result =
      Except.ok { status := "FAILED", reason := some "2FA code not provided in time" } := by
  rw [run_eq_afterBegin req env hf,
      runAfterBegin_timeout req env [0] _ hst hsig]
  exact ⟨rfl, rfl, rfl, rfl⟩

/-- C1, witness for the amended theorem at a concrete input. -/
theorem c1_witness :
    (run
      { user_id := "u2", service_name := "Hulu",
        login_url := "https://hulu.com/login", email := "x@y.z", password := "pw2" }
      { beginFrameworkFail := fun _ => none,
        agentBeh := fun _ => AgentBeh.runRaises "blocked by a verification step",
        signal := some (900, "111111"), notifyExc := none, captureExc := none,
        ts := "T0", now := "T1" }).finalState.status = "TIMEOUT" ∧
    (run
      { user_id := "u2", service_name := "Hulu",
        login_url := "https://hulu.com/login", email := "x@y.z", password := "pw2" }
      { beginFrameworkFail := fun _ => none,
        agentBeh := fun _ => AgentBeh.runRaises "blocked by a verification step",
        signal := some (900, "111111"), notifyExc := none, captureExc := none,
        ts := "T0", now := "T1" }).trace =
      ["PENDING", "STARTING", "NAVIGATING", "AWAITING_2FA", "TIMEOUT"] ∧
    (run
      { user_id := "u2", service_name := "Hulu",
        login_url := "https://hulu.com/login", email := "x@y.z", password := "pw2" }
      { beginFrameworkFail := fun _ => none,
        agentBeh := fun _ => AgentBeh.runRaises "blocked by a verification step",
        signal := some (900, "111111"), notifyExc := none, captureExc := none,
        ts := "T0", now := "T1" }).activities =
      ["start_cancellation", "send_push_notification"] ∧
    (run
      { user_id := "u2", service_name := "Hulu",
        login_url := "https://hulu.com/login", email := "x@y.z", password := "pw2" }
      { beginFrameworkFail := fun _ => none,
        agentBeh := fun _ => AgentBeh.runRaises "blocked by a verification step",
        signal := some (900, "111111"), notifyExc := none, captureExc := none,
        ts := "T0", now := "T1" }).result =
      Except.ok { status := "FAILED", reason := some "2FA code not provided in time" } :=
  c1_timeout_behavior _ _ rfl (by decide)
    (Or.inr ⟨900, "111111", rfl, by decide⟩)

/-! Claim C2. -/

/-- C2, counterexample.  Submitting a 2FA signal to an instance that is not
in `AWAITING_2FA` (here: `PENDING`) does not fail and does not leave the
state unchanged: the signal handler unconditionally stores the code. -/
theorem c2_counterexample :
    provide_2fa_code { status := "PENDING", two_fa_code := none } "482913" ≠
      { status := "PENDING", two_fa_code := none } ∧
    (provide_2fa_code { status := "PENDING", two_fa_code := none } "482913").two_fa_code =
      some "482913" ∧
    (provide_2fa_code { status := "PENDING", two_fa_code := none } "482913").status =
      "PENDING" := by
  decide

/-- C2, amended: the signal handler accepts a 2FA code in every state — it
unconditionally overwrites `two_fa_code` and leaves `status` unchanged;
there is no `NotAwaitingSignal` rejection.  In particular a code submitted
before the instance reaches `AWAITING_2FA` (delivery time 0) is retained
and satisfies the subsequent wait, so the run proceeds to `VERIFYING_2FA`. -/
theorem c2_signal_always_accepted (s : WfState) (code : String)
    (req : WfRequest) (env : WfEnv) (c : String)
    (hf : env.beginFrameworkFail 0 = none)
    (hst : (start_cancellation req env.ts (env.agentBeh 0)).status = "2FA_REQUIRED")
    (hsig : env.signal = some (0, c)) :
    provide_2fa_code s code = { status := s.status, two_fa_code := some code } ∧
    "VERIFYING_2FA" ∈ (run req env).trace := by
  constructor
  · rfl
  · have hsid := start_cancellation_session_id req env.ts (env.agentBeh 0) (Or.inl hst)
    rw [run_eq_afterBegin req env hf,
        runAfterBegin_deliver req env [0] _ 0 c _ hst hsig (by norm_num) hsid]
    exact finalize_trace_mem _ _ _ _ _ _ _ _ _ (by decide)

/-- C2, witness for the amended theorem at a concrete input. -/
theorem c2_witness :
    provide_2fa_code { status := "COMPLETED", two_fa_code := none } "999999" =
      { status := "COMPLETED", two_fa_code := some "999999" } ∧
    "VERIFYING_2FA" ∈ (run
      { user_id := "u3", service_name := "Spotify",
        login_url := "https://spotify.com/login", email := "m@n.o", password := "pw3" }
      { beginFrameworkFail := fun _ => none,
        agentBeh := fun _ => AgentBeh.runRaises "2FA challenge shown",
        signal := some (0, "246810"), notifyExc := none, captureExc := none,
        ts := "T0", now := "T1" }).trace :=
  c2_signal_always_accepted
    { status := "COMPLETED", two_fa_code := none } "999999"
    _ _ _ rfl (by decide) rfl

/-! Claim C3. -/

/-- C3, counterexample.  In a run that consumes the pending 2FA signal and
completes, the `two_fa_code` slot is NOT cleared by the read: it still holds
the delivered code in the terminal state. -/
theorem c3_counterexample :
    (run
      { user_id := "u1", service_name := "Netflix",
        login_url := "https://netflix.com/login", email := "a@b.c", password := "pw" }
      { beginFrameworkFail := fun _ => none,
        agentBeh := fun _ => AgentBeh.runRaises "2FA required by site",
        signal := some (30, "482913"), notifyExc := none, captureExc := none,
        ts := "T0", now := "T1" }).finalState.status = "COMPLETED" ∧
    (run
      { user_id := "u1", service_name := "Netflix",
        login_url := "https://netflix.com/login", email := "a@b.c", password := "pw" }
      { beginFrameworkFail := fun _ => none,
        agentBeh := fun _ => AgentBeh.runRaises "2FA required by site",
        signal := some (30, "482913"), notifyExc := none, captureExc := none,
        ts := "T0", now := "T1" }).finalState.two_fa_code = some "482913" ∧
    (run
      { user_id := "u1", service_name := "Netflix",
        login_url := "https://netflix.com/login", email := "a@b.c", password := "pw" }
      { beginFrameworkFail := fun _ => none,
        agentBeh := fun _ => AgentBeh.runRaises "2FA required by site",
        signal := some (30, "482913"), notifyExc := none, captureExc := none,
        ts := "T0", now := "T1" }).finalState.two_fa_code ≠ none := by
  decide

/-- C3, amended: the pending 2FA code is read by the linear control flow but
consuming it does NOT clear the slot — in every run that consumes a signal,
`two_fa_code` still holds the delivered code when the instance reaches its
terminal state, so a hypothetical second read would observe the same code. -/
theorem c3_code_never_cleared (req : WfRequest) (env : WfEnv) (t : Nat) (c : String)
    (hf : env.beginFrameworkFail 0 = none)
    (hst : (start_cancellation req env.ts (env.agentBeh 0)).status = "2FA_REQUIRED")
    (hsig : env.signal = some (t, c)) (ht : t < 600) :
    (run req env).finalState.two_fa_code = some c ∧
    isTerminal (run req env).finalState.status = true := by
  have hsid := start_cancellation_session_id req env.ts (env.agentBeh 0) (Or.inl hst)
  rw [run_eq_afterBegin req env hf,
      runAfterBegin_deliver req env [0] _ t c _ hst hsig ht hsid]
  refine finalize_state_eq _ _ _ _ _ _ _ _ ?_
  intro hs
  rw [inject_session_of_success _ _ hs]
  simp

/-- C3, witness for the amended theorem at a concrete input. -/
theorem c3_witness :
    (run
      { user_id := "u4", service_name := "Disney",
        login_url := "https://disney.com/login", email := "d@e.f", password := "pw4" }
      { beginFrameworkFail := fun _ => none,
        agentBeh := fun _ => AgentBeh.runRaises "needs 2FA",
        signal := some (120, "135791"), notifyExc := none, captureExc := none,
        ts := "T0", now := "T1" }).finalState.two_fa_code = some "135791" ∧
    isTerminal (run
      { user_id := "u4", service_name := "Disney",
        login_url := "https://disney.com/login", email := "d@e.f", password := "pw4" }
      { beginFrameworkFail := fun _ => none,
        agentBeh := fun _ => AgentBeh.runRaises "needs 2FA",
        signal := some (120, "135791"), notifyExc := none, captureExc := none,
        ts := "T0", now := "T1" }).finalState.status = true :=
  c3_code_never_cleared _ _ 120 "135791" rfl (by decide) rfl (by decide)

/-! Claim C4. -/

/-- C4, counterexample.  When the begin-cancellation activity fails with
transient errors on all 3 attempts, the engine does retry 3 times with
increasing backoff delays, but the workflow then raises the activity
failure unhandled: the instance never transitions to `FAILED` (its status
stays `NAVIGATING`) and no terminal status dict is returned. -/
theorem c4_counterexample :
    (run
      { user_id := "u1", service_name := "Netflix",
        login_url := "https://netflix.com/login", email := "a@b.c", password := "pw" }
      { beginFrameworkFail := fun _ => some "connection timed out",
        agentBeh := fun _ => AgentBeh.runOk,
        signal := none, notifyExc := none, captureExc := none,
        ts := "T0", now := "T1" }).result = Except.error "connection timed out" ∧
    (run
      { user_id := "u1", service_name := "Netflix",
        login_url := "https://netflix.com/login", email := "a@b.c", password := "pw" }
      { beginFrameworkFail := fun _ => some "connection timed out",
        agentBeh := fun _ => AgentBeh.runOk,
        signal := none, notifyExc := none, captureExc := none,
        ts := "T0", now := "T1" }).beginDelays = [0, 1, 2] ∧
    (run
      { user_id := "u1", service_name := "Netflix",
        login_url := "https://netflix.com/login", email := "a@b.c", password := "pw" }
      { beginFrameworkFail := fun _ => some "connection timed out",
        agentBeh := fun _ => AgentBeh.runOk,
        signal := none, notifyExc := none, captureExc := none,
        ts := "T0", now := "T1" }).finalState.status = "NAVIGATING" ∧
    (run
      { user_id := "u1", service_name := "Netflix",
        login_url := "https://netflix.com/login", email := "a@b.c", password := "pw" }
      { beginFrameworkFail := fun _ => some "connection timed out",
        agentBeh := fun _ => AgentBeh.runOk,
        signal := none, notifyExc := none, captureExc := none,
        ts := "T0", now := "T1" }).finalState.status ≠ "FAILED" ∧
    "FAILED" ∉ (run
      { user_id := "u1", service_name := "Netflix",
        login_url := "https://netflix.com/login", email := "a@b.c", password := "pw" }
      { beginFrameworkFail := fun _ => some "connection timed out",
        agentBeh := fun _ => AgentBeh.runOk,
        signal := none, notifyExc := none, captureExc := none,
        ts := "T0", now := "T1" }).trace := by
  decide

/-- C4, amended: when the begin activity fails with transient errors on 3
consecutive attempts (the default maximum), exactly 3 attempt records with
strictly increasing backoff delays are produced, and the workflow then
propagates the last captured error as an unhandled activity failure — the
instance's status remains `NAVIGATING`, it does not transition to `FAILED`
and no terminal status dict is returned.  (Only when the begin activity
itself returns a `FAILED` dict — which `start_cancellation` always does
instead of raising — does the workflow reach `FAILED` with a returned
result, and then on the first attempt, without retries.) -/
theorem c4_retry_exhaustion_raises (req : WfRequest) (env : WfEnv)
    (m0 m1 m2 : String)
    (h0 : env.beginFrameworkFail 0 = some m0)
    (h1 : env.beginFrameworkFail 1 = some m1)
    (h2 : env.beginFrameworkFail 2 = some m2) :
    (run req env).result = Except.error m2 ∧
    (run req env).beginDelays = [0, 1, 2] ∧
    List.Chain' (fun a b => a < b) (run req env).beginDelays ∧
    (run req env).finalState.status = "NAVIGATING" ∧
    isTerminal (run req env).finalState.status = false ∧
    (run req env).trace = ["PENDING", "STARTING", "NAVIGATING"] := by
  unfold run
  rw [execute_begin_exhaust req env m0 m1 m2 h0 h1 h2]
  refine ⟨rfl, rfl, ?_, rfl, rfl, rfl⟩
  show List.Chain' (fun a b => a < b) [0, 1, 2]
  simp [List.chain'_cons]

/-- C4, witness for the amended theorem at a concrete input. -/
theorem c4_witness :
    (run
      { user_id := "u5", service_name := "Prime",
        login_url := "https://amazon.com/login", email := "p@q.r", password := "pw5" }
      { beginFrameworkFail := fun i => some ("transient " ++ toString i),
        agentBeh := fun _ => AgentBeh.runOk,
        signal := none, notifyExc := none, captureExc := none,
        ts := "T0", now := "T1" }).result = Except.error "transient 2" ∧
    (run
      { user_id := "u5", service_name := "Prime",
        login_url := "https://amazon.com/login", email := "p@q.r", password := "pw5" }
      { beginFrameworkFail := fun i => some ("transient " ++ toString i),
        agentBeh := fun _ => AgentBeh.runOk,
        signal := none, notifyExc := none, captureExc := none,
        ts := "T0", now := "T1" }).beginDelays = [0, 1, 2] ∧
    List.Chain' (fun a b => a < b) (run
      { user_id := "u5", service_name := "Prime",
        login_url := "https://amazon.com/login", email := "p@q.r", password := "pw5" }
      { beginFrameworkFail := fun i => some ("transient " ++ toString i),
        agentBeh := fun _ => AgentBeh.runOk,
        signal := none, notifyExc := none, captureExc := none,
        ts := "T0", now := "T1" }).beginDelays ∧
    (run
      { user_id := "u5", service_name := "Prime",
        login_url := "https://amazon.com/login", email := "p@q.r", password := "pw5" }
      { beginFrameworkFail := fun i => some ("transient " ++ toString i),
        agentBeh := fun _ => AgentBeh.runOk,
        signal := none, notifyExc := none, captureExc := none,
        ts := "T0", now := "T1" }).finalState.status = "NAVIGATING" ∧
    isTerminal (run
      { user_id := "u5", service_name := "Prime",
        login_url := "https://amazon.com/login", email := "p@q.r", password := "pw5" }
      { beginFrameworkFail := fun i => some ("transient " ++ toString i),
        agentBeh := fun _ => AgentBeh.runOk,
        signal := none, notifyExc := none, captureExc := none,
        ts := "T0", now := "T1" }).finalState.status = false ∧
    (run
      { user_id := "u5", service_name := "Prime",
        login_url := "https://amazon.com/login", email := "p@q.r", password := "pw5" }
      { beginFrameworkFail := fun i => some ("transient " ++ toString i),
        agentBeh := fun _ => AgentBeh.runOk,
        signal := none, notifyExc := none, captureExc := none,
        ts := "T0", now := "T1" }).trace = ["PENDING", "STARTING", "NAVIGATING"] :=
  c4_retry_exhaustion_raises _ _ "transient 0" "transient 1" "transient 2" rfl rfl rfl

/-! Claim C5. -/

/-- C5, counterexample.  Scenario E verbatim: the proof capturer fails after
a successful 2FA flow (begin reports `2FA_REQUIRED`, the code arrives in
time, injection succeeds — `VERIFYING_2FA` is in the trace).  The instance
reaches `COMPLETED`, but the result is the plain success dict with status
`"SUCCESS"` and a `None` screenshot URL: there is no `cancelled_but_unproven`
marker, no `proofMissing` flag (the result dict has no such key at all), and
no reason or message field distinguishing the degraded outcome. -/
theorem c5_counterexample :
    (run
      { user_id := "u1", service_name := "Netflix",
        login_url := "https://netflix.com/login", email := "a@b.c", password := "pw" }
      { beginFrameworkFail := fun _ => none,
        agentBeh := fun _ => AgentBeh.runRaises "2FA required by site",
        signal := some (30, "482913"), notifyExc := none,
        captureExc := some "upload failed",
        ts := "T0", now := "T1" }).finalState.status = "COMPLETED" ∧
    "VERIFYING_2FA" ∈ (run
      { user_id := "u1", service_name := "Netflix",
        login_url := "https://netflix.com/login", email := "a@b.c", password := "pw" }
      { beginFrameworkFail := fun _ => none,
        agentBeh := fun _ => AgentBeh.runRaises "2FA required by site",
        signal := some (30, "482913"), notifyExc := none,
        captureExc := some "upload failed",
        ts := "T0", now := "T1" }).trace ∧
    (run
      { user_id := "u1", service_name := "Netflix",
        login_url := "https://netflix.com/login", email := "a@b.c", password := "pw" }
      { beginFrameworkFail := fun _ => none,
        agentBeh := fun _ => AgentBeh.runRaises "2FA required by site",
        signal := some (30, "482913"), notifyExc := none,
        captureExc := some "upload failed",
        ts := "T0", now := "T1" }).result.toOption.map RunResult.status =
      some "SUCCESS" ∧
    (run
      { user_id := "u1", service_name := "Netflix",
        login_url := "https://netflix.com/login", email := "a@b.c", password := "pw" }
      { beginFrameworkFail := fun _ => none,
        agentBeh := fun _ => AgentBeh.runRaises "2FA required by site",
        signal := some (30, "482913"), notifyExc := none,
        captureExc := some "upload failed",
        ts := "T0", now := "T1" }).result.toOption.map RunResult.screenshot_url =
      some none ∧
    (run
      { user_id := "u1", service_name := "Netflix",
        login_url := "https://netflix.com/login", email := "a@b.c", password := "pw" }
      { beginFrameworkFail := fun _ => none,
        agentBeh := fun _ => AgentBeh.runRaises "2FA required by site",
        signal := some (30, "482913"), notifyExc := none,
        captureExc := some "upload failed",
        ts := "T0", now := "T1" }).result.toOption.map RunResult.reason =
      some none ∧
    (run
      { user_id := "u1", service_name := "Netflix",
        login_url := "https://netflix.com/login", email := "a@b.c", password := "pw" }
      { beginFrameworkFail := fun _ => none,
        agentBeh := fun _ => AgentBeh.runRaises "2FA required by site",
        signal := some (30, "482913"), notifyExc := none,
        captureExc := some "upload failed",
        ts := "T0", now := "T1" }).result.toOption.map RunResult.message =
      some none := by
  decide

/-- C5, amended: in every run in which the cancellation itself succeeded —
whether the begin activity returned `SUCCESS` directly or the instance went
through the 2FA flow (begin reports `2FA_REQUIRED`, a non-empty code arrives
within the bound and injection succeeds) — but the capture-proof activity
fails, the instance reaches `COMPLETED` (not a hard `FAILED`, and no
rollback: `FAILED` never appears in the trace), and the result is the
ordinary success dict with status `"SUCCESS"` whose screenshot and video
URLs are `None` — the degraded outcome is not reported distinctly (no
`cancelled_but_unproven` status, no `proofMissing` key). -/
theorem c5_degraded_completion (req : WfRequest) (env : WfEnv) (e : String)
    (hf : env.beginFrameworkFail 0 = none)
    (hpath : (start_cancellation req env.ts (env.agentBeh 0)).status = "SUCCESS" ∨
      ((start_cancellation req env.ts (env.agentBeh 0)).status = "2FA_REQUIRED" ∧
       ∃ t c, env.signal = some (t, c) ∧ t < 600 ∧ c ≠ ""))
    (hcap : env.captureExc = some e) :
    (run req env).finalState.status = "COMPLETED" ∧
    (run req env).result = Except.ok
      { status := "SUCCESS", screenshot_url := none, video_url := none,
        savings_per_year := some req.annual_cost, cancelled_at := some env.now } ∧
    "CAPTURING_PROOF" ∈ (run req env).trace ∧
    "FAILED" ∉ (run req env).trace := by
  have hc : capture_proof (mkSessionId req env.ts) env.ts env.captureExc =
      { screenshot_url := none, video_url := none,
        message := some ("Failed to capture proof: " ++ e) } := by
    rw [hcap]
    unfold capture_proof
    rw [if_neg (mkSessionId_ne_empty req env.ts)]
  rcases hpath with hst | ⟨hst, t, c, hsig, ht, hcne⟩
  · have hsid := start_cancellation_session_id req env.ts (env.agentBeh 0) (Or.inr hst)
    rw [run_eq_afterBegin req env hf,
        runAfterBegin_not2fa _ _ _ _ (by rw [hst]; decide),
        finalize_success_eq _ _ _ _ _ _ _ _ _ hst hsid, hc]
    refine ⟨rfl, rfl, ?_, ?_⟩
    · show "CAPTURING_PROOF" ∈
        (["PENDING", "STARTING", "NAVIGATING"] ++
          ["CAPTURING_PROOF", "COMPLETED"] : List String)
      decide
    · show "FAILED" ∉
        (["PENDING", "STARTING", "NAVIGATING"] ++
          ["CAPTURING_PROOF", "COMPLETED"] : List String)
      decide
  · have hsid := start_cancellation_session_id req env.ts (env.agentBeh 0) (Or.inl hst)
    rw [run_eq_afterBegin req env hf,
        runAfterBegin_deliver req env [0] _ t c _ hst hsig ht hsid]
    have hinj : inject_2fa_code (mkSessionId req env.ts) c =
        { status := "SUCCESS", session_id := some (mkSessionId req env.ts),
          message := some "2FA code verified and cancellation continued" } := by
      unfold inject_2fa_code
      rw [if_neg (by push_neg; exact ⟨mkSessionId_ne_empty req env.ts, hcne⟩)]
    rw [hinj, finalize_success_eq _ _ _ _ _ _ _ _ _ rfl rfl, hc]
    refine ⟨rfl, rfl, ?_, ?_⟩
    · show "CAPTURING_PROOF" ∈
        (["PENDING", "STARTING", "NAVIGATING", "AWAITING_2FA", "VERIFYING_2FA"] ++
          ["CAPTURING_PROOF", "COMPLETED"] : List String)
      decide
    · show "FAILED" ∉
        (["PENDING", "STARTING", "NAVIGATING", "AWAITING_2FA", "VERIFYING_2FA"] ++
          ["CAPTURING_PROOF", "COMPLETED"] : List String)
      decide

/-- C5, witness for the amended theorem at a concrete input exercising the
2FA-flow path of Scenario E: begin reports `2FA_REQUIRED`, the code arrives
at 45 seconds, injection succeeds, proof capture fails. -/
theorem c5_witness :
    (run
      { user_id := "u6", service_name := "HBO",
        login_url := "https://hbo.com/login", email := "h@b.o", password := "pw6" }
      { beginFrameworkFail := fun _ => none,
        agentBeh := fun _ => AgentBeh.runRaises "2FA checkpoint reached",
        signal := some (45, "362514"), notifyExc := none,
        captureExc := some "storage unreachable",
        ts := "T0", now := "T1" }).finalState.status = "COMPLETED" ∧
    (run
      { user_id := "u6", service_name := "HBO",
        login_url := "https://hbo.com/login", email := "h@b.o", password := "pw6" }
      { beginFrameworkFail := fun _ => none,
        agentBeh := fun _ => AgentBeh.runRaises "2FA checkpoint reached",
        signal := some (45, "362514"), notifyExc := none,
        captureExc := some "storage unreachable",
        ts := "T0", now := "T1" }).result = Except.ok
      { status := "SUCCESS", screenshot_url := none, video_url := none,
        savings_per_year := some 0, cancelled_at := some "T1" } ∧
    "CAPTURING_PROOF" ∈ (run
      { user_id := "u6", service_name := "HBO",
        login_url := "https://hbo.com/login", email := "h@b.o", password := "pw6" }
      { beginFrameworkFail := fun _ => none,
        agentBeh := fun _ => AgentBeh.runRaises "2FA checkpoint reached",
        signal := some (45, "362514"), notifyExc := none,
        captureExc := some "storage unreachable",
        ts := "T0", now := "T1" }).trace ∧
    "FAILED" ∉ (run
      { user_id := "u6", service_name := "HBO",
        login_url := "https://hbo.com/login", email := "h@b.o", password := "pw6" }
      { beginFrameworkFail := fun _ => none,
        agentBeh := fun _ => AgentBeh.runRaises "2FA checkpoint reached",
        signal := some (45, "362514"), notifyExc := none,
        captureExc := some "storage unreachable",
        ts := "T0", now := "T1" }).trace :=
  c5_degraded_completion _ _ "storage unreachable" rfl
    (Or.inr ⟨by decide, 45, "362514", rfl, by decide, by decide⟩) rfl

/-! Claim C6. -/

/-- C6: in every run that enters the 2FA branch, failure of the notify-user
activity is fire-and-forget with respect to the state machine — with the
notification failing (its result dict has status `"FAILED"`) the returned
result, the status trace, the invoked activities and the final state are all
identical to the run in which notification succeeds, and the instance still
proceeds to `AWAITING_2FA` to await the 2FA signal. -/
theorem c6_notify_fire_and_forget (req : WfRequest) (env : WfEnv) (e : String)
    (hf : env.beginFrameworkFail 0 = none)
    (hst : (start_cancellation req env.ts (env.agentBeh 0)).status = "2FA_REQUIRED") :
    (run req { env with notifyExc := some e }).result =
      (run req { env with notifyExc := none }).result ∧
    (run req { env with notifyExc := some e }).trace =
      (run req { env with notifyExc := none }).trace ∧
    (run req { env with notifyExc := some e }).activities =
      (run req { env with notifyExc := none }).activities ∧
    (run req { env with notifyExc := some e }).finalState =
      (run req { env with notifyExc := none }).finalState ∧
    "AWAITING_2FA" ∈ (run req { env with notifyExc := some e }).trace ∧
    (∃ r, (run req { env with notifyExc := some e }).notifyResult = some r ∧
      r.status = "FAILED") := by
  have hx : run req { env with notifyExc := some e } =
      runAfterBegin req { env with notifyExc := some e } [0]
        (start_cancellation req env.ts (env.agentBeh 0)) :=
    run_eq_afterBegin _ _ hf
  have hy : run req { env with notifyExc := none } =
      runAfterBegin req { env with notifyExc := none } [0]
        (start_cancellation req env.ts (env.agentBeh 0)) :=
    run_eq_afterBegin _ _ hf
  rw [hx, hy]
  obtain ⟨h1, h2, h3, h4⟩ :=
    runAfterBegin_notify_indep req env (some e) none [0]
      (start_cancellation req env.ts (env.agentBeh 0))
  refine ⟨h1, h2, h3, h4, ?_, ?_⟩
  · exact runAfterBegin_awaiting_mem _ _ _ _ hst
  · refine ⟨awaitNotify req { env with notifyExc := some e }, ?_, ?_⟩
    · exact runAfterBegin_notifyResult _ _ _ _ hst
    · exact notify_failed_of_exc _ _ _ _

/-- C6, witness at a concrete input. -/
theorem c6_witness :
    (run
      { user_id := "u7", service_name := "Peacock",
        login_url := "https://peacock.com/login", email := "g@h.i", password := "pw7" }
      { beginFrameworkFail := fun _ => none,
        agentBeh := fun _ => AgentBeh.runRaises "2FA prompt appeared",
        signal := some (10, "777777"), notifyExc := some "push gateway down",
        captureExc := none, ts := "T0", now := "T1" }).result =
      (run
      { user_id := "u7", service_name := "Peacock",
        login_url := "https://peacock.com/login", email := "g@h.i", password := "pw7" }
      { beginFrameworkFail := fun _ => none,
        agentBeh := fun _ => AgentBeh.runRaises "2FA prompt appeared",
        signal := some (10, "777777"), notifyExc := none,
        captureExc := none, ts := "T0", now := "T1" }).result ∧
    (run
      { user_id := "u7", service_name := "Peacock",
        login_url := "https://peacock.com/login", email := "g@h.i", password := "pw7" }
      { beginFrameworkFail := fun _ => none,
        agentBeh := fun _ => AgentBeh.runRaises "2FA prompt appeared",
        signal := some (10, "777777"), notifyExc := some "push gateway down",
        captureExc := none, ts := "T0", now := "T1" }).trace =
      (run
      { user_id := "u7", service_name := "Peacock",
        login_url := "https://peacock.com/login", email := "g@h.i", password := "pw7" }
      { beginFrameworkFail := fun _ => none,
        agentBeh := fun _ => AgentBeh.runRaises "2FA prompt appeared",
        signal := some (10, "777777"), notifyExc := none,
        captureExc := none, ts := "T0", now := "T1" }).trace ∧
    (run
      { user_id := "u7", service_name := "Peacock",
        login_url := "https://peacock.com/login", email := "g@h.i", password := "pw7" }
      { beginFrameworkFail := fun _ => none,
        agentBeh := fun _ => AgentBeh.runRaises "2FA prompt appeared",
        signal := some (10, "777777"), notifyExc := some "push gateway down",
        captureExc := none, ts := "T0", now := "T1" }).activities =
      (run
      { user_id := "u7", service_name := "Peacock",
        login_url := "https://peacock.com/login", email := "g@h.i", password := "pw7" }
      { beginFrameworkFail := fun _ => none,
        agentBeh := fun _ => AgentBeh.runRaises "2FA prompt appeared",
        signal := some (10, "777777"), notifyExc := none,
        captureExc := none, ts := "T0", now := "T1" }).activities ∧
    (run
      { user_id := "u7", service_name := "Peacock",
        login_url := "https://peacock.com/login", email := "g@h.i", password := "pw7" }
      { beginFrameworkFail := fun _ => none,
        agentBeh := fun _ => AgentBeh.runRaises "2FA prompt appeared",
        signal := some (10, "777777"), notifyExc := some "push gateway down",
        captureExc := none, ts := "T0", now := "T1" }).finalState =
      (run
      { user_id := "u7", service_name := "Peacock",
        login_url := "https://peacock.com/login", email := "g@h.i", password := "pw7" }
      { beginFrameworkFail := fun _ => none,
        agentBeh := fun _ => AgentBeh.runRaises "2FA prompt appeared",
        signal := some (10, "777777"), notifyExc := none,
        captureExc := none, ts := "T0", now := "T1" }).finalState ∧
    "AWAITING_2FA" ∈ (run
      { user_id := "u7", service_name := "Peacock",
        login_url := "https://peacock.com/login", email := "g@h.i", password := "pw7" }
      { beginFrameworkFail := fun _ => none,
        agentBeh := fun _ => AgentBeh.runRaises "2FA prompt appeared",
        signal := some (10, "777777"), notifyExc := some "push gateway down",
        captureExc := none, ts := "T0", now := "T1" }).trace ∧
    (∃ r, (run
      { user_id := "u7", service_name := "Peacock",
        login_url := "https://peacock.com/login", email := "g@h.i", password := "pw7" }
      { beginFrameworkFail := fun _ => none,
        agentBeh := fun _ => AgentBeh.runRaises "2FA prompt appeared",
        signal := some (10, "777777"), notifyExc := some "push gateway down",
        captureExc := none, ts := "T0", now := "T1" }).notifyResult = some r ∧
      r.status = "FAILED") :=
  c6_notify_fire_and_forget
    { user_id := "u7", service_name := "Peacock",
      login_url := "https://peacock.com/login", email := "g@h.i", password := "pw7" }
    { beginFrameworkFail := fun _ => none,
      agentBeh := fun _ => AgentBeh.runRaises "2FA prompt appeared",
      signal := some (10, "777777"), notifyExc := none,
      captureExc := none, ts := "T0", now := "T1" }
    "push gateway down" rfl (by decide)

/-- Every post-begin outcome has a well-formed status trace: it starts at
`PENDING`, follows only allowed edges, and visits terminal states only in
final position. -/
theorem runAfterBegin_trace_props (req : WfRequest) (env : WfEnv)
    (ds : List Nat) (result : ActResult) :
    (runAfterBegin req env ds result).trace.head? = some "PENDING" ∧
    chainOk (runAfterBegin req env ds result).trace = true ∧
    ((runAfterBegin req env ds result).trace.dropLast.all fun s => !isTerminal s) = true := by
  unfold runAfterBegin
  by_cases h2 : result.status = "2FA_REQUIRED"
  · rw [if_pos h2]
    cases hs : env.signal with
    | none => exact ⟨rfl, rfl, rfl⟩
    | some tc =>
      obtain ⟨t, c⟩ := tc
      dsimp only
      by_cases ht : t < 600
      · rw [if_pos ht]
        cases hsid : result.session_id with
        | none => exact ⟨rfl, rfl, rfl⟩
        | some sid =>
          dsimp only
          have hcode : (provide_2fa_code
              { status := "AWAITING_2FA", two_fa_code := none } c).two_fa_code.getD "" = c := rfl
          rw [hcode]
          by_cases hi : sid = "" ∨ c = ""
          · have hinj : inject_2fa_code sid c =
                { status := "FAILED",
                  message := some "Missing required parameters: session_id, code" } := by
              unfold inject_2fa_code
              rw [if_pos hi]
            rw [hinj, finalize_fail_eq _ _ _ _ _ _ _ _ (by decide)]
            exact ⟨rfl, rfl, rfl⟩
          · have hinj : inject_2fa_code sid c =
                { status := "SUCCESS", session_id := some sid,
                  message := some "2FA code verified and cancellation continued" } := by
              unfold inject_2fa_code
              rw [if_neg hi]
            rw [hinj, finalize_success_eq _ _ _ _ _ _ _ _ sid rfl rfl]
            exact ⟨rfl, rfl, rfl⟩
      · rw [if_neg ht]
        exact ⟨rfl, rfl, rfl⟩
  · rw [if_neg h2]
    by_cases hsucc : result.status = "SUCCESS"
    · cases hsid : result.session_id with
      | none =>
        rw [finalize_keyerror_eq _ _ _ _ _ _ _ _ hsucc hsid]
        exact ⟨rfl, rfl, rfl⟩
      | some sid =>
        rw [finalize_success_eq _ _ _ _ _ _ _ _ sid hsucc hsid]
        exact ⟨rfl, rfl, rfl⟩
    · rw [finalize_fail_eq _ _ _ _ _ _ _ _ hsucc]
      exact ⟨rfl, rfl, rfl⟩

/-! Claim C7. -/

/-- C7: in every execution, the status trace starts at `PENDING`, every
observed transition lies in the graph
`PENDING→STARTING→NAVIGATING→(AWAITING_2FA→VERIFYING_2FA)?→CAPTURING_PROOF→COMPLETED`
together with `*→FAILED` (from non-terminal states) and
`AWAITING_2FA→TIMEOUT`, and a terminal status (`COMPLETED`, `FAILED`,
`TIMEOUT`) is never followed by any further status assignment: the status
field is monotonic along the defined transition graph and no instance's
status is mutated after reaching a terminal state. -/
theorem c7_status_monotonic (req : WfRequest) (env : WfEnv) :
    (run req env).trace.head? = some "PENDING" ∧
    chainOk (run req env).trace = true ∧
    ((run req env).trace.dropLast.all fun s => !isTerminal s) = true := by
  rcases hpr : executeActivity cancellation_retry_policy (beginAttempt req env)
    with ⟨res, ds⟩
  have hrun : run req env =
      match res with
      | Except.error e =>
          { result := Except.error e,
            trace := ["PENDING", "STARTING", "NAVIGATING"],
            activities := ["start_cancellation"],
            beginDelays := ds, notifyResult := none,
            finalState := { status := "NAVIGATING", two_fa_code := none } }
      | Except.ok result => runAfterBegin req env ds result := by
    unfold run
    simp only [hpr]
    cases res <;> rfl
  rw [hrun]
  cases res with
  | error e => exact ⟨rfl, rfl, rfl⟩
  | ok result => exact runAfterBegin_trace_props req env ds result

/-! Claim C8. -/

/-- C8, counterexample.  A run whose begin activity returns `SUCCESS`
directly but whose proof capture then fails still reaches `COMPLETED`, yet
its result carries a `None` screenshot URL — the claimed non-empty
screenshot reference does not hold of every such run. -/
theorem c8_counterexample :
    (run
      { user_id := "u8", service_name := "Paramount",
        login_url := "https://paramount.com/login", email := "j@k.l", password := "pw8" }
      { beginFrameworkFail := fun _ => none,
        agentBeh := fun _ => AgentBeh.runOk,
        signal := none, notifyExc := none, captureExc := some "s3 timeout",
        ts := "T0", now := "T1" }).finalState.status = "COMPLETED" ∧
    (run
      { user_id := "u8", service_name := "Paramount",
        login_url := "https://paramount.com/login", email := "j@k.l", password := "pw8" }
      { beginFrameworkFail := fun _ => none,
        agentBeh := fun _ => AgentBeh.runOk,
        signal := none, notifyExc := none, captureExc := some "s3 timeout",
        ts := "T0", now := "T1" }).result.toOption.map RunResult.status =
      some "SUCCESS" ∧
    (run
      { user_id := "u8", service_name := "Paramount",
        login_url := "https://paramount.com/login", email := "j@k.l", password := "pw8" }
      { beginFrameworkFail := fun _ => none,
        agentBeh := fun _ => AgentBeh.runOk,
        signal := none, notifyExc := none, captureExc := some "s3 timeout",
        ts := "T0", now := "T1" }).result.toOption.map RunResult.screenshot_url =
      some none := by
  decide

/-- C8, amended: in every run in which the begin activity returns `SUCCESS`
directly (no 2FA challenge) and the capture-proof operation raises no
exception, the instance reaches `COMPLETED` with a non-empty screenshot URL
in its result, and neither the notify-user nor the submit-2FA activity runs
nor do the `AWAITING_2FA`/`VERIFYING_2FA` states appear in the trace. -/
theorem c8_direct_success (req : WfRequest) (env : WfEnv)
    (hf : env.beginFrameworkFail 0 = none)
    (hst : (start_cancellation req env.ts (env.agentBeh 0)).status = "SUCCESS")
    (hcap : env.captureExc = none) :
    (run req env).finalState.status = "COMPLETED" ∧
    (run req env).result = Except.ok
      { status := "SUCCESS",
        screenshot_url := some ("https://storage.supabase.co/proof/" ++ mkSessionId req env.ts ++ "/screenshot.png"),
        video_url := some ("https://steel.dev/sessions/" ++ mkSessionId req env.ts ++ "/recording.mp4"),
        savings_per_year := some req.annual_cost, cancelled_at := some env.now } ∧
    ("https://storage.supabase.co/proof/" ++ mkSessionId req env.ts ++ "/screenshot.png") ≠ "" ∧
    (run req env).trace =
      ["PENDING", "STARTING", "NAVIGATING", "CAPTURING_PROOF", "COMPLETED"] ∧
    "AWAITING_2FA" ∉ (run req env).trace ∧
    "VERIFYING_2FA" ∉ (run req env).trace ∧
    (run req env).activities = ["start_cancellation", "capture_proof"] := by
  have hsid := start_cancellation_session_id req env.ts (env.agentBeh 0) (Or.inr hst)
  rw [run_eq_afterBegin req env hf,
      runAfterBegin_not2fa _ _ _ _ (by rw [hst]; decide),
      finalize_success_eq _ _ _ _ _ _ _ _ _ hst hsid]
  have hc : capture_proof (mkSessionId req env.ts) env.ts env.captureExc =
      { screenshot_url :=
          some ("https://storage.supabase.co/proof/" ++ mkSessionId req env.ts ++ "/screenshot.png"),
        video_url :=
          some ("https://steel.dev/sessions/" ++ mkSessionId req env.ts ++ "/recording.mp4"),
        timestamp := some env.ts, session_id := some (mkSessionId req env.ts) } := by
    rw [hcap]
    unfold capture_proof
    rw [if_neg (mkSessionId_ne_empty req env.ts)]
  rw [hc]
  refine ⟨rfl, rfl,
    append_left_ne_empty _ _ (append_left_ne_empty _ _ (by decide)),
    rfl, ?_, ?_, rfl⟩
  · show "AWAITING_2FA" ∉
      (["PENDING", "STARTING", "NAVIGATING"] ++ ["CAPTURING_PROOF", "COMPLETED"] : List String)
    decide
  · show "VERIFYING_2FA" ∉
      (["PENDING", "STARTING", "NAVIGATING"] ++ ["CAPTURING_PROOF", "COMPLETED"] : List String)
    decide

/-- C8, witness for the amended theorem at a concrete input. -/
theorem c8_witness :
    (run
      { user_id := "u9", service_name := "Audible",
        login_url := "https://audible.com/login", email := "s@t.u", password := "pw9" }
      { beginFrameworkFail := fun _ => none,
        agentBeh := fun _ => AgentBeh.runOk,
        signal := none, notifyExc := none, captureExc := none,
        ts := "T2", now := "T3" }).finalState.status = "COMPLETED" ∧
    (run
      { user_id := "u9", service_name := "Audible",
        login_url := "https://audible.com/login", email := "s@t.u", password := "pw9" }
      { beginFrameworkFail := fun _ => none,
        agentBeh := fun _ => AgentBeh.runOk,
        signal := none, notifyExc := none, captureExc := none,
        ts := "T2", now := "T3" }).result = Except.ok
      { status := "SUCCESS",
        screenshot_url := some ("https://storage.supabase.co/proof/" ++
          mkSessionId
            { user_id := "u9", service_name := "Audible",
              login_url := "https://audible.com/login", email := "s@t.u", password := "pw9" }
            "T2" ++ "/screenshot.png"),
        video_url := some ("https://steel.dev/sessions/" ++
          mkSessionId
            { user_id := "u9", service_name := "Audible",
              login_url := "https://audible.com/login", email := "s@t.u", password := "pw9" }
            "T2" ++ "/recording.mp4"),
        savings_per_year := some 0, cancelled_at := some "T3" } ∧
    ("https://storage.supabase.co/proof/" ++
      mkSessionId
        { user_id := "u9", service_name := "Audible",
          login_url := "https://audible.com/login", email := "s@t.u", password := "pw9" }
        "T2" ++ "/screenshot.png") ≠ "" ∧
    (run
      { user_id := "u9", service_name := "Audible",
        login_url := "https://audible.com/login", email := "s@t.u", password := "pw9" }
      { beginFrameworkFail := fun _ => none,
        agentBeh := fun _ => AgentBeh.runOk,
        signal := none, notifyExc := none, captureExc := none,
        ts := "T2", now := "T3" }).trace =
      ["PENDING", "STARTING", "NAVIGATING", "CAPTURING_PROOF", "COMPLETED"] ∧
    "AWAITING_2FA" ∉ (run
      { user_id := "u9", service_name := "Audible",
        login_url := "https://audible.com/login", email := "s@t.u", password := "pw9" }
      { beginFrameworkFail := fun _ => none,
        agentBeh := fun _ => AgentBeh.runOk,
        signal := none, notifyExc := none, captureExc := none,
        ts := "T2", now := "T3" }).trace ∧
    "VERIFYING_2FA" ∉ (run
      { user_id := "u9", service_name := "Audible",
        login_url := "https://audible.com/login", email := "s@t.u", password := "pw9" }
      { beginFrameworkFail := fun _ => none,
        agentBeh := fun _ => AgentBeh.runOk,
        signal := none, notifyExc := none, captureExc := none,
        ts := "T2", now := "T3" }).trace ∧
    (run
      { user_id := "u9", service_name := "Audible",
        login_url := "https://audible.com/login", email := "s@t.u", password := "pw9" }
      { beginFrameworkFail := fun _ => none,
        agentBeh := fun _ => AgentBeh.runOk,
        signal := none, notifyExc := none, captureExc := none,
        ts := "T2", now := "T3" }).activities = ["start_cancellation", "capture_proof"] :=
  c8_direct_success _ _ rfl (by decide) rfl

/-! Claim C9. -/

/-- C9: the placeholder submit-2FA activity returns `SUCCESS` for every
request whose session handle and code are both non-empty — the `FAILED`
outcome for a wrong code or expired session is unreachable — and
consequently every instance that receives a (non-empty) code while in
`AWAITING_2FA` proceeds to `COMPLETED` regardless of the code's value. -/
theorem c9_inject_always_succeeds (sid code : String)
    (req : WfRequest) (env : WfEnv) (t : Nat) (c : String)
    (hs : sid ≠ "") (hc0 : code ≠ "")
    (hf : env.beginFrameworkFail 0 = none)
    (hst : (start_cancellation req env.ts (env.agentBeh 0)).status = "2FA_REQUIRED")
    (hsig : env.signal = some (t, c)) (ht : t < 600) (hc : c ≠ "") :
    inject_2fa_code sid code =
      { status := "SUCCESS", session_id := some sid,
        message := some "2FA code verified and cancellation continued" } ∧
    (run req env).finalState.status = "COMPLETED" ∧
    (run req env).trace =
      ["PENDING", "STARTING", "NAVIGATING", "AWAITING_2FA", "VERIFYING_2FA",
       "CAPTURING_PROOF", "COMPLETED"] := by
  constructor
  · unfold inject_2fa_code
    rw [if_neg (by push_neg; exact ⟨hs, hc0⟩)]
  · have hsid := start_cancellation_session_id req env.ts (env.agentBeh 0) (Or.inl hst)
    rw [run_eq_afterBegin req env hf,
        runAfterBegin_deliver req env [0] _ t c _ hst hsig ht hsid]
    have hinj : inject_2fa_code (mkSessionId req env.ts) c =
        { status := "SUCCESS", session_id := some (mkSessionId req env.ts),
          message := some "2FA code verified and cancellation continued" } := by
      unfold inject_2fa_code
      rw [if_neg (by push_neg; exact ⟨mkSessionId_ne_empty req env.ts, hc⟩)]
    rw [hinj, finalize_success_eq _ _ _ _ _ _ _ _ _ rfl rfl]
    exact ⟨rfl, rfl⟩

/-- C9, witness at a concrete input. -/
theorem c9_witness :
    inject_2fa_code "session-abc" "000000" =
      { status := "SUCCESS", session_id := some "session-abc",
        message := some "2FA code verified and cancellation continued" } ∧
    (run
      { user_id := "u10", service_name := "Tidal",
        login_url := "https://tidal.com/login", email := "v@w.x", password := "pw10" }
      { beginFrameworkFail := fun _ => none,
        agentBeh := fun _ => AgentBeh.runRaises "account verification required",
        signal := some (5, "wrong-code-entirely"), notifyExc := none, captureExc := none,
        ts := "T0", now := "T1" }).finalState.status = "COMPLETED" ∧
    (run
      { user_id := "u10", service_name := "Tidal",
        login_url := "https://tidal.com/login", email := "v@w.x", password := "pw10" }
      { beginFrameworkFail := fun _ => none,
        agentBeh := fun _ => AgentBeh.runRaises "account verification required",
        signal := some (5, "wrong-code-entirely"), notifyExc := none, captureExc := none,
        ts := "T0", now := "T1" }).trace =
      ["PENDING", "STARTING", "NAVIGATING", "AWAITING_2FA", "VERIFYING_2FA",
       "CAPTURING_PROOF", "COMPLETED"] :=
  c9_inject_always_succeeds "session-abc" "000000" _ _ 5 "wrong-code-entirely"
    (by decide) (by decide) rfl (by decide) rfl (by decide) (by decide)

/-! Claim C10. -/

/-- C10: the begin-cancellation activity never raises — its status is always
one of `SUCCESS`, `2FA_REQUIRED` or `FAILED`; an agent exception whose text
does not mention 2FA or verification is absorbed into a returned dict with
status `FAILED` (one that does mention them becomes `2FA_REQUIRED`, handled
inside the agent); an exception escaping the agent wrapper is likewise
absorbed into a `FAILED` dict; and consequently, in a run without
framework-level attempt failures, the retry policy never fires: the begin
activity executes exactly once, whatever the agent does. -/
theorem c10_start_cancellation_total (req : WfRequest) (ts : String)
    (beh : AgentBeh) (m : String) (req2 : WfRequest) (env : WfEnv)
    (hm : mentions2FA m = false)
    (hf : env.beginFrameworkFail 0 = none) :
    ((start_cancellation req ts beh).status = "SUCCESS" ∨
     (start_cancellation req ts beh).status = "2FA_REQUIRED" ∨
     (start_cancellation req ts beh).status = "FAILED") ∧
    (start_cancellation req ts (AgentBeh.runRaises m)).status = "FAILED" ∧
    (start_cancellation req ts (AgentBeh.setupRaises m)).status = "FAILED" ∧
    (run req2 env).beginDelays = [0] := by
  refine ⟨?_, ?_, ?_, ?_⟩
  · by_cases hv : req.service_name = "" ∨ req.login_url = "" ∨ req.email = "" ∨ req.password = ""
    · right; right; simp [start_cancellation, hv]
    · cases hcs : cancel_subscription req.service_name ts beh with
      | error e => right; right; simp [start_cancellation, hv, hcs]
      | ok r =>
        by_cases h2 : r.status = "2FA_REQUIRED"
        · right; left; simp [start_cancellation, hv, hcs, h2]
        · by_cases hsu : r.status = "SUCCESS"
          · left; simp [start_cancellation, hv, hcs, h2, hsu]
          · right; right; simp [start_cancellation, hv, hcs, h2, hsu]
  · by_cases hv : req.service_name = "" ∨ req.login_url = "" ∨ req.email = "" ∨ req.password = ""
    · simp [start_cancellation, hv]
    · have hcs : cancel_subscription req.service_name ts (AgentBeh.runRaises m) =
          Except.ok { status := "FAILED", service := some req.service_name,
                      error := some m } := by
        simp [cancel_subscription, hm]
      simp [start_cancellation, hv, hcs]
  · by_cases hv : req.service_name = "" ∨ req.login_url = "" ∨ req.email = "" ∨ req.password = ""
    · simp [start_cancellation, hv]
    · simp [start_cancellation, cancel_subscription, hv]
  · rw [run_eq_afterBegin req2 env hf]
    exact runAfterBegin_delays _ _ _ _

/-- C10, witness at a concrete input. -/
theorem c10_witness :
    ((start_cancellation
        { user_id := "u11", service_name := "Crunchyroll",
          login_url := "https://crunchyroll.com/login", email := "y@z.a", password := "pw11" }
        "T4" AgentBeh.runOk).status = "SUCCESS" ∨
     (start_cancellation
        { user_id := "u11", service_name := "Crunchyroll",
          login_url := "https://crunchyroll.com/login", email := "y@z.a", password := "pw11" }
        "T4" AgentBeh.runOk).status = "2FA_REQUIRED" ∨
     (start_cancellation
        { user_id := "u11", service_name := "Crunchyroll",
          login_url := "https://crunchyroll.com/login", email := "y@z.a", password := "pw11" }
        "T4" AgentBeh.runOk).status = "FAILED") ∧
    (start_cancellation
        { user_id := "u11", service_name := "Crunchyroll",
          login_url := "https://crunchyroll.com/login", email := "y@z.a", password := "pw11" }
        "T4" (AgentBeh.runRaises "socket hang up")).status = "FAILED" ∧
    (start_cancellation
        { user_id := "u11", service_name := "Crunchyroll",
          login_url := "https://crunchyroll.com/login", email := "y@z.a", password := "pw11" }
        "T4" (AgentBeh.setupRaises "socket hang up")).status = "FAILED" ∧
    (run
      { user_id := "u11", service_name := "Crunchyroll",
        login_url := "https://crunchyroll.com/login", email := "y@z.a", password := "pw11" }
      { beginFrameworkFail := fun _ => none,
        agentBeh := fun _ => AgentBeh.runRaises "socket hang up",
        signal := none, notifyExc := none, captureExc := none,
        ts := "T4", now := "T5" }).beginDelays = [0] :=
  c10_start_cancellation_total _ "T4" AgentBeh.runOk "socket hang up" _ _
    (by decide) rfl

end SubZero
